import Mathlib

/-!
Verification development for the Vulkan fence synchronization primitive of
onnxruntime (`onnxruntime/core/providers/vulkan/vulkan_fence.h`) and the
surrounding design described in its specification (fence pool, submission
tracking, cross-process export).

The header under verification declares:

  class VulkanFence {
   public:
    explicit VulkanFence(const VkDevice& logical_device);
    virtual ~VulkanFence();
    VkFence Get() const { return fence_; }
    VkResult Reset() const;
    VkResult Wait() const;
    bool SupportFenceFd() const;
   private:
    VkResult RawWait() const;
   private:
    const VkDevice& logical_device_;
    VkFence fence_;
  };

Only the header is available; method bodies (and the pool / export adapter
components of the design) are modelled from the specification, faithful to the
declared signatures.  Opaque native handles (`VkDevice`, `VkFence`) are
embedded as natural-number identifiers; the device-side state that the native
calls consult is made explicit as a `DeviceModel` value threaded through the
operations.
-/

/-- Vulkan native status codes (the subset relevant to fence operations, from
`vulkan_core.h`, reached via the header's include of `vulkan_common.h`).
`Reset`, `Wait` and `RawWait` are all declared to return this native type. -/
inductive VkResult where
  | VK_SUCCESS
  | VK_NOT_READY
  | VK_TIMEOUT
  | VK_ERROR_OUT_OF_HOST_MEMORY
  | VK_ERROR_DEVICE_LOST
deriving DecidableEq, Repr

/-- The two fence states of the specification's data model: `Unsignaled`
(created or just reset) and `Signaled` (device completed the guarded work). -/
inductive FenceState where
  | Unsignaled
  | Signaled
deriving DecidableEq, Repr

/-- Opaque native device handle, embedded as an identifier. -/
abbrev VkDevice : Type := Nat

/-- Opaque native fence handle, embedded as an identifier. -/
abbrev VkFence : Type := Nat

/-- The two data members of `class VulkanFence`: the borrowed logical-device
reference (`const VkDevice& logical_device_`) and the exclusively owned native
fence handle (`VkFence fence_`).  The reference member is embedded as the
identity of the referred-to device, which a reference rebinds never. -/
structure VulkanFence where
  logical_device_ : VkDevice
  fence_ : VkFence
deriving DecidableEq, Repr

/-- `VkFence Get() const { return fence_; }` — defined inline in the header:
returns the stored native handle. -/
def VulkanFence.Get (f : VulkanFence) : VkFence :=
  f.fence_

/-- Modelled from the spec: the device-side state consulted by the native
fence calls (`vulkan_fence.cc` is not part of the visible source).  A device
has a lost flag (`DeviceError` conditions: device lost, driver failure), a
fence-export capability flag (a device/driver property discovered at runtime),
the signal state of each native fence payload, and a fresh-handle counter. -/
structure DeviceModel where
  lost : Bool
  supportsFenceFd : Bool
  fenceStates : VkFence → FenceState
  nextFence : VkFence

/-- Pointwise update of a fence-state table. -/
def setFenceState (s : VkFence → FenceState) (x : VkFence) (v : FenceState)
    : VkFence → FenceState :=
  fun y => if y = x then v else s y

/-- Modelled from the spec: the constructor `VulkanFence(const VkDevice&)`
(`Create(device)` in the spec) allocates a native fence bound to `device` with
initial state `Unsignaled`, and fails with a device error if the device is
invalid.  The body is in the missing `vulkan_fence.cc`. -/
def VulkanFence.Create (dev : VkDevice) (d : DeviceModel)
    : Except VkResult (VulkanFence × DeviceModel) :=
  if d.lost then
    Except.error VkResult.VK_ERROR_DEVICE_LOST
  else
    Except.ok
      (⟨dev, d.nextFence⟩,
       { d with
         fenceStates := setFenceState d.fenceStates d.nextFence FenceState.Unsignaled,
         nextFence := d.nextFence + 1 })

/-- Modelled from the spec: `VkResult Reset() const` (`vkResetFences`)
transitions the native fence back to `Unsignaled`; resetting an already
`Unsignaled` fence is a succeeding no-op; the native call fails with a device
error exactly under the device-lost condition.  The body is in the missing
`vulkan_fence.cc`; the declared return type is the native `VkResult`. -/
def VulkanFence.Reset (f : VulkanFence) (d : DeviceModel)
    : VkResult × DeviceModel :=
  if d.lost then
    (VkResult.VK_ERROR_DEVICE_LOST, d)
  else
    (VkResult.VK_SUCCESS,
     { d with fenceStates := setFenceState d.fenceStates f.fence_ FenceState.Unsignaled })

/-- Modelled from the spec: the non-blocking native signal-state query
(`vkGetFenceStatus` semantics): success when the fence is signaled, not-ready
when unsignaled, device-lost error when the device is lost. -/
def getFenceStatus (f : VulkanFence) (d : DeviceModel) : VkResult :=
  if d.lost then VkResult.VK_ERROR_DEVICE_LOST
  else if d.fenceStates f.fence_ = FenceState.Signaled then VkResult.VK_SUCCESS
  else VkResult.VK_NOT_READY

/-- Modelled from the spec: `IsSignaled()`, the non-blocking signal check of
the spec's Fence Object contract (the header declares no such method; it is
the boolean reading of the native status query). -/
def VulkanFence.IsSignaled (f : VulkanFence) (d : DeviceModel) : Bool :=
  decide (getFenceStatus f d = VkResult.VK_SUCCESS)

/-- The spec's three-way wait result: `Signaled`, `TimedOut`, `DeviceError`. -/
inductive WaitResult where
  | Signaled
  | TimedOut
  | DeviceError
deriving DecidableEq, Repr

/-- Modelled from the spec: the spec's public `Wait(timeout)` at timeout zero,
the degenerate non-blocking poll — device-lost yields `DeviceError`, a
signaled fence yields `Signaled`, an unsignaled fence yields `TimedOut`
immediately.  (The header's `Wait()` takes no timeout; this definition follows
the spec's words, for comparison with the source-shaped wait.) -/
def specWaitZero (f : VulkanFence) (d : DeviceModel) : WaitResult :=
  if d.lost then WaitResult.DeviceError
  else if d.fenceStates f.fence_ = FenceState.Signaled then WaitResult.Signaled
  else WaitResult.TimedOut

/-- Modelled from the spec: `bool SupportFenceFd() const` — the capability
query (`SupportsExport()` in the spec): whether this fence can be exported as
a cross-process OS handle.  Support is a device/driver property discovered at
runtime, so the result depends only on the device, and the query is total:
`false` is an ordinary returned value, not an error. -/
def VulkanFence.SupportFenceFd (_f : VulkanFence) (d : DeviceModel) : Bool :=
  d.supportsFenceFd

/-- Error kinds of the spec's cross-process export adapter. -/
inductive ExportError where
  | UnsupportedCapability
  | DeviceError
deriving DecidableEq, Repr

/-- An OS-level handle (e.g. a file descriptor), embedded as an identifier. -/
abbrev OsHandle : Type := Nat

/-- Modelled from the spec: `Export(fence)` of the Cross-Process Export
Adapter (no such code is in the visible source): returns an OS-level handle
for the fence when the capability query allows it, and fails with
`UnsupportedCapability` — without crashing and without producing a handle —
when `SupportFenceFd` is false. -/
def ExportFence (f : VulkanFence) (d : DeviceModel) : Except ExportError OsHandle :=
  if f.SupportFenceFd d then Except.ok f.fence_
  else Except.error ExportError.UnsupportedCapability

/-- Modelled from the spec: `VkResult RawWait() const` — the private raw-wait
step issuing the blocking native wait call (`vkWaitForFences`), retried until
the fence is signaled or the device fails.  The device-side state is supplied
as a trace `obs` of observations, one per native wait iteration; the `fuel`
argument is a modelling bound on how many iterations are examined — `none`
means the call is still blocked after `fuel` iterations (it is NOT a timeout
result: the source's raw wait loops and never surfaces a timed-out status). -/
def VulkanFence.RawWait (f : VulkanFence) (obs : Nat → DeviceModel)
    : Nat → Option VkResult
  | 0 => none
  | fuel + 1 =>
    if (obs 0).lost then some VkResult.VK_ERROR_DEVICE_LOST
    else if (obs 0).fenceStates f.fence_ = FenceState.Signaled then
      some VkResult.VK_SUCCESS
    else VulkanFence.RawWait f (fun i => obs (i + 1)) fuel

/-- Modelled from the spec: the public `VkResult Wait() const`.  The spec's
internal-wait note says the public wait wraps the raw-wait step; with the
declared signature — no timeout parameter, native `VkResult` return type —
the wrapper forwards the raw native result unchanged. -/
def VulkanFence.Wait (f : VulkanFence) (obs : Nat → DeviceModel) (fuel : Nat)
    : Option VkResult :=
  f.RawWait obs fuel

/-- Modelled from the spec: the normalization of driver status codes onto the
spec's three-way result, as the spec's internal-wait note describes it.  The
source's public `Wait` does not apply it (its declared return type is the
native `VkResult`); it is stated here for comparison. -/
def normalizeVk (r : VkResult) : WaitResult :=
  match r with
  | VkResult.VK_SUCCESS => WaitResult.Signaled
  | VkResult.VK_NOT_READY => WaitResult.TimedOut
  | VkResult.VK_TIMEOUT => WaitResult.TimedOut
  | VkResult.VK_ERROR_OUT_OF_HOST_MEMORY => WaitResult.DeviceError
  | VkResult.VK_ERROR_DEVICE_LOST => WaitResult.DeviceError

/-- A public const method call on a `VulkanFence` object (`Get`, `Reset`,
`Wait`, `SupportFenceFd`), for stating frame properties over call sequences.
The wait variant records the modelling fuel of the blocking wait. -/
inductive MethodCall where
  | get
  | reset
  | wait (obs : Nat → DeviceModel) (fuel : Nat)
  | supportFenceFd

/-- Effect of one public method call on the pair (object, device state).  All
four methods are declared `const` in the header, so none modifies the object's
stored members; `Reset` changes only the device-side fence payload. -/
def applyMethod (s : VulkanFence × DeviceModel) (c : MethodCall)
    : VulkanFence × DeviceModel :=
  match c with
  | MethodCall.get => s
  | MethodCall.reset => (s.1, (s.1.Reset s.2).2)
  | MethodCall.wait _ _ => s
  | MethodCall.supportFenceFd => s

/-- A sequence of public method calls, applied left to right. -/
def runCalls (s : VulkanFence × DeviceModel) (cs : List MethodCall)
    : VulkanFence × DeviceModel :=
  cs.foldl applyMethod s

/-- Live native handles, for lifetime statements: which devices and which
fences currently exist. -/
structure Handles where
  liveDevices : List VkDevice
  liveFences : List VkFence

/-- Modelled from the spec: the destructor `~VulkanFence()` releases the
native fence handle (`vkDestroyFence`).  The logical device is borrowed, never
owned, so destruction of the fence leaves the device's lifetime untouched. -/
def destroyFence (f : VulkanFence) (h : Handles) : Handles :=
  { h with liveFences := h.liveFences.erase f.fence_ }

/- Basic lemmas about the wait model. -/

/-- A raw wait that returns at all returns either native success or the native
device-lost error — never the native timed-out code, because the raw-wait loop
retries on it. -/
theorem rawWait_values (f : VulkanFence) (obs : Nat → DeviceModel) (fuel : Nat)
    (r : VkResult) (h : f.RawWait obs fuel = some r) :
    r = VkResult.VK_SUCCESS ∨ r = VkResult.VK_ERROR_DEVICE_LOST := by
  induction fuel generalizing obs with
  | zero => simp [VulkanFence.RawWait] at h
  | succ n ih =>
    rw [VulkanFence.RawWait] at h
    by_cases hl : (obs 0).lost
    · simp [hl] at h
      right
      exact h.symm
    · by_cases hs : (obs 0).fenceStates f.fence_ = FenceState.Signaled
      · simp [hl, hs] at h
        left
        exact h.symm
      · simp [hl, hs] at h
        exact ih (fun i => obs (i + 1)) h

/-- On a healthy device whose fence is never signaled, the raw wait never
returns: the public wait blocks indefinitely (there is no timeout path). -/
theorem rawWait_none_of_never (f : VulkanFence) (obs : Nat → DeviceModel)
    (fuel : Nat) (hl : ∀ i, (obs i).lost = false)
    (hs : ∀ i, (obs i).fenceStates f.fence_ ≠ FenceState.Signaled) :
    f.RawWait obs fuel = none := by
  induction fuel generalizing obs with
  | zero => rfl
  | succ n ih =>
    rw [VulkanFence.RawWait]
    simp [hl 0, hs 0]
    exact ih (fun i => obs (i + 1)) (fun i => hl (i + 1)) (fun i => hs (i + 1))

/- Concrete fixtures used by counterexamples and witnesses. -/

/-- A healthy device with every fence payload unsignaled and no export
capability. -/
def idleDevice : DeviceModel :=
  { lost := false
    supportsFenceFd := false
    fenceStates := fun _ => FenceState.Unsignaled
    nextFence := 0 }

/-- The same device after a device-lost condition. -/
def lostDevice : DeviceModel :=
  { idleDevice with lost := true }

/-- A healthy device whose fence payloads are all signaled. -/
def signaledDevice : DeviceModel :=
  { idleDevice with fenceStates := fun _ => FenceState.Signaled }

/-- A healthy device with the fence-export capability. -/
def fdDevice : DeviceModel :=
  { idleDevice with supportsFenceFd := true }

/-- A concrete fence object: device id 0, native fence handle 0. -/
def fence0 : VulkanFence :=
  ⟨0, 0⟩

/-- A device trace that is healthy for two native-wait iterations and then
enters the device-lost condition, with the fence never signaled. -/
def lostAfterTwo : Nat → DeviceModel :=
  fun i => if 2 ≤ i then lostDevice else idleDevice

/-- Claim C1 (counterexample): the claim says a zero timeout is a non-blocking
poll returning `TimedOut` on an unsignaled fence.  The header's wait takes no
timeout at all: on a concrete unsignaled fence of a healthy device the public
wait is still blocked after 50 native wait iterations (`none`), and in
particular has not produced the native timed-out status the claimed poll
would return. -/
theorem claim_C1_counterexample :
    VulkanFence.Wait fence0 (fun _ => idleDevice) 50 = none ∧
    VulkanFence.Wait fence0 (fun _ => idleDevice) 50 ≠ some VkResult.VK_TIMEOUT := by
  have h : VulkanFence.Wait fence0 (fun _ => idleDevice) 50 = none :=
    rawWait_none_of_never fence0 (fun _ => idleDevice) 50
      (fun _ => rfl) (fun _ hc => FenceState.noConfusion hc)
  exact ⟨h, by rw [h]; exact fun hc => Option.noConfusion hc⟩

/-- Claim C1 (amended): the public wait operation is `Wait()` with no timeout
parameter.  It blocks the calling thread until the fence is signaled or the
device errors: whenever it returns, the result is the native `VK_SUCCESS` or
the native device-lost error — never the native timed-out status — and on a
healthy device whose fence is never signaled it does not return at all, so no
zero-timeout non-blocking poll and no finite timeout are exposed. -/
theorem claim_C1_amended_wait (f : VulkanFence) (obs : Nat → DeviceModel) (fuel : Nat) :
    (∀ r, f.Wait obs fuel = some r →
      (r = VkResult.VK_SUCCESS ∨ r = VkResult.VK_ERROR_DEVICE_LOST) ∧
      r ≠ VkResult.VK_TIMEOUT) ∧
    ((∀ i, (obs i).lost = false) →
     (∀ i, (obs i).fenceStates f.fence_ ≠ FenceState.Signaled) →
     f.Wait obs fuel = none) := by
  constructor
  · intro r h
    have hv := rawWait_values f obs fuel r h
    refine ⟨hv, ?_⟩
    rcases hv with h1 | h1 <;> simp [h1]
  · intro hl hs
    exact rawWait_none_of_never f obs fuel hl hs

/-- Claim C1 (witness): the amended wait theorem applied at concrete inputs —
a signaled fence, where the wait returns the native success status, and an
unsignaled fence of a healthy device, where the wait is still blocked. -/
theorem claim_C1_amended_wait_witness :
    ((VkResult.VK_SUCCESS = VkResult.VK_SUCCESS ∨
      VkResult.VK_SUCCESS = VkResult.VK_ERROR_DEVICE_LOST) ∧
     VkResult.VK_SUCCESS ≠ VkResult.VK_TIMEOUT) ∧
    VulkanFence.Wait fence0 (fun _ => idleDevice) 3 = none :=
  ⟨(claim_C1_amended_wait fence0 (fun _ => signaledDevice) 3).1
     VkResult.VK_SUCCESS (by decide),
   (claim_C1_amended_wait fence0 (fun _ => idleDevice) 3).2
     (fun _ => rfl) (fun _ hc => FenceState.noConfusion hc)⟩

/-- Claim C2 (counterexample): the claim says the public wait maps every
driver status onto the three-way result so no caller observes a native status
code.  On a concrete lost device the public `Wait` returns exactly the raw
wait's output, and that output is the native driver status code
`VK_ERROR_DEVICE_LOST` — a value of the native `VkResult` type, not of the
three-way result type — so the caller does observe a native status code. -/
theorem claim_C2_counterexample :
    VulkanFence.Wait fence0 (fun _ => lostDevice) 1 =
      VulkanFence.RawWait fence0 (fun _ => lostDevice) 1 ∧
    VulkanFence.Wait fence0 (fun _ => lostDevice) 1 =
      some VkResult.VK_ERROR_DEVICE_LOST :=
  ⟨rfl, by decide⟩

/-- Claim C2 (amended): the public `Wait()` is a wrapper over the internal
raw-wait step `RawWait()` that issues the blocking native wait call, and
`RawWait` is declared `private` so it is not callable from outside the fence
object; but the wrapper adds no timeout bookkeeping and performs no
normalization: `Wait` returns `RawWait`'s native `VkResult` unchanged, so
callers of the public interface do observe native status codes.  (What the
absent normalization would yield is nonetheless constrained: a returned raw
status never normalizes to the timed-out branch, because the raw-wait loop
retries the native timed-out status.) -/
theorem claim_C2_amended_wrapper (f : VulkanFence) (obs : Nat → DeviceModel) (fuel : Nat) :
    f.Wait obs fuel = f.RawWait obs fuel ∧
    (∀ r, f.Wait obs fuel = some r → normalizeVk r ≠ WaitResult.TimedOut) := by
  refine ⟨rfl, ?_⟩
  intro r h
  rcases rawWait_values f obs fuel r h with h1 | h1 <;> simp [h1, normalizeVk]

/-- Claim C2 (witness): the amended wrapper theorem applied at a concrete lost
device, where the forwarded raw result is the native device-lost code, whose
normalization is not the timed-out branch. -/
theorem claim_C2_amended_wrapper_witness :
    VulkanFence.Wait fence0 (fun _ => lostDevice) 2 =
      VulkanFence.RawWait fence0 (fun _ => lostDevice) 2 ∧
    normalizeVk VkResult.VK_ERROR_DEVICE_LOST ≠ WaitResult.TimedOut :=
  ⟨(claim_C2_amended_wrapper fence0 (fun _ => lostDevice) 2).1,
   (claim_C2_amended_wrapper fence0 (fun _ => lostDevice) 2).2
     VkResult.VK_ERROR_DEVICE_LOST (by decide)⟩

/-- Claim C7: once the device is lost (from some iteration `k` on, the
device-lost condition holds), every wait on a fence that was never signaled
returns — it does not stay blocked — and the value it returns is the
device-lost error, i.e. the terminal `DeviceError` outcome. -/
theorem claim_C7_device_lost (f : VulkanFence) (obs : Nat → DeviceModel) (k : Nat)
    (hlost : ∀ i, k ≤ i → (obs i).lost = true)
    (hs : ∀ i, (obs i).fenceStates f.fence_ ≠ FenceState.Signaled)
    (fuel : Nat) (hf : k < fuel) :
    f.Wait obs fuel = some VkResult.VK_ERROR_DEVICE_LOST := by
  induction k generalizing obs fuel with
  | zero =>
    obtain ⟨m, rfl⟩ : ∃ m, fuel = m + 1 :=
      ⟨fuel - 1, (Nat.succ_pred_eq_of_pos hf).symm⟩
    show f.RawWait obs (m + 1) = some VkResult.VK_ERROR_DEVICE_LOST
    rw [VulkanFence.RawWait]
    simp [hlost 0 (Nat.le_refl 0)]
  | succ j ih =>
    obtain ⟨m, rfl⟩ : ∃ m, fuel = m + 1 :=
      ⟨fuel - 1, (Nat.succ_pred_eq_of_pos (Nat.lt_of_le_of_lt (Nat.zero_le _) hf)).symm⟩
    show f.RawWait obs (m + 1) = some VkResult.VK_ERROR_DEVICE_LOST
    rw [VulkanFence.RawWait]
    by_cases hl : (obs 0).lost
    · simp [hl]
    · simp [hl, hs 0]
      exact ih (fun i => obs (i + 1))
        (fun i hi => hlost (i + 1) (Nat.succ_le_succ hi))
        (fun i => hs (i + 1)) m (Nat.lt_of_succ_lt_succ hf)

/-- Claim C7 (witness): the device-lost theorem applied to the concrete trace
that loses the device after two iterations, with the fence never signaled:
the wait terminates with the device-lost error. -/
theorem claim_C7_device_lost_witness :
    (lostAfterTwo 2).lost = true ∧ (2 : Nat) < 5 ∧
    VulkanFence.Wait fence0 lostAfterTwo 5 = some VkResult.VK_ERROR_DEVICE_LOST :=
  ⟨by decide, by decide,
   claim_C7_device_lost fence0 lostAfterTwo 2
     (fun i hi => by simp [lostAfterTwo, if_pos hi, lostDevice, idleDevice])
     (fun i => by by_cases h : 2 ≤ i <;>
       simp [lostAfterTwo, h, lostDevice, idleDevice, fence0])
     5 (by decide)⟩

/-- A concrete fence as produced by `Create 7 idleDevice`. -/
def createdFence : VulkanFence :=
  ⟨7, 0⟩

/-- The device state right after `Create 7 idleDevice`. -/
def createdDevice : DeviceModel :=
  { idleDevice with
    fenceStates := setFenceState idleDevice.fenceStates 0 FenceState.Unsignaled
    nextFence := 1 }

/-- Claim C3: `Reset()` transitions a `Signaled` fence back to `Unsignaled`;
calling `Reset()` on an already `Unsignaled` fence is a no-op that still
succeeds; `Reset()` fails with the device error exactly when the native call
fails (the device-lost condition); and after a fence observed `Signaled` is
reset, a subsequent `IsSignaled()` returns false. -/
theorem claim_C3_reset (f : VulkanFence) (d : DeviceModel) :
    (d.lost = false →
      (f.Reset d).1 = VkResult.VK_SUCCESS ∧
      ((f.Reset d).2).fenceStates f.fence_ = FenceState.Unsignaled) ∧
    (d.lost = false → d.fenceStates f.fence_ = FenceState.Unsignaled →
      (f.Reset d).1 = VkResult.VK_SUCCESS ∧
      ((f.Reset d).2).fenceStates = d.fenceStates) ∧
    ((f.Reset d).1 = VkResult.VK_ERROR_DEVICE_LOST ↔ d.lost = true) ∧
    (f.IsSignaled d = true → f.IsSignaled ((f.Reset d).2) = false) := by
  have hlost : d.lost = true ∨ d.lost = false := by
    cases d.lost <;> simp
  refine ⟨?_, ?_, ?_, ?_⟩
  · intro hl
    simp [VulkanFence.Reset, hl, setFenceState]
  · intro hl hu
    refine ⟨by simp [VulkanFence.Reset, hl], ?_⟩
    simp only [VulkanFence.Reset, hl, Bool.false_eq_true, if_false]
    funext y
    by_cases hy : y = f.fence_
    · simp [setFenceState, hy, hu.symm]
    · simp [setFenceState, hy]
  · rcases hlost with hl | hl <;> simp [VulkanFence.Reset, hl]
  · intro hsig
    have hl : d.lost = false := by
      rcases hlost with hl | hl
      · exfalso
        simp [VulkanFence.IsSignaled, getFenceStatus, hl] at hsig
      · exact hl
    simp [VulkanFence.IsSignaled, getFenceStatus, VulkanFence.Reset, hl, setFenceState]

/-- Claim C3 (witness): the reset theorem applied to a concrete signaled fence
(success, unsignaled afterwards, poll now false) and to a concrete already
unsignaled fence (no-op that still succeeds). -/
theorem claim_C3_reset_witness :
    ((fence0.Reset signaledDevice).1 = VkResult.VK_SUCCESS ∧
     ((fence0.Reset signaledDevice).2).fenceStates fence0.fence_ = FenceState.Unsignaled) ∧
    ((fence0.Reset idleDevice).1 = VkResult.VK_SUCCESS ∧
     ((fence0.Reset idleDevice).2).fenceStates = idleDevice.fenceStates) ∧
    fence0.IsSignaled ((fence0.Reset signaledDevice).2) = false :=
  ⟨(claim_C3_reset fence0 signaledDevice).1 rfl,
   (claim_C3_reset fence0 idleDevice).2.1 rfl rfl,
   (claim_C3_reset fence0 signaledDevice).2.2.2 (by decide)⟩

/-- Claim C4: the export-capability query `SupportFenceFd` returns a boolean
stating whether the fence can be exported as a cross-process OS handle.  It is
a runtime branch on a device/driver property, not a type-level distinction:
the same device gives every fence the same answer; the query is a total
boolean function whose `false` result is an ordinary returned value (no error
channel exists in its type); and the call itself has no effect on the object
or the device state. -/
theorem claim_C4_support_fence_fd (f g : VulkanFence) (d : DeviceModel) :
    f.SupportFenceFd d = d.supportsFenceFd ∧
    f.SupportFenceFd d = g.SupportFenceFd d ∧
    (f.SupportFenceFd d = true ∨ f.SupportFenceFd d = false) ∧
    applyMethod (f, d) MethodCall.supportFenceFd = (f, d) := by
  refine ⟨rfl, rfl, ?_, rfl⟩
  cases h : d.supportsFenceFd
  · right
    exact h
  · left
    exact h

/-- Claim C5: the non-blocking query `IsSignaled()` returns the same result as
testing whether the spec's zero-timeout wait poll returns `Signaled`, and a
fence freshly produced by `Create` is unsignaled: `IsSignaled()` on it returns
false. -/
theorem claim_C5_is_signaled (f fc : VulkanFence) (d d2 : DeviceModel) (dev : VkDevice) :
    (f.IsSignaled d = true ↔ specWaitZero f d = WaitResult.Signaled) ∧
    (VulkanFence.Create dev d = Except.ok (fc, d2) → fc.IsSignaled d2 = false) := by
  constructor
  · by_cases hl : d.lost = true
    · simp [VulkanFence.IsSignaled, getFenceStatus, specWaitZero, hl]
    · rw [Bool.not_eq_true] at hl
      by_cases hs : d.fenceStates f.fence_ = FenceState.Signaled
      · simp [VulkanFence.IsSignaled, getFenceStatus, specWaitZero, hl, hs]
      · simp [VulkanFence.IsSignaled, getFenceStatus, specWaitZero, hl, hs]
  · intro h
    by_cases hl : d.lost = true
    · simp [VulkanFence.Create, hl] at h
    · rw [Bool.not_eq_true] at hl
      simp only [VulkanFence.Create, hl, Bool.false_eq_true, if_false,
        Except.ok.injEq, Prod.mk.injEq] at h
      obtain ⟨hfc, hd2⟩ := h
      subst hfc
      subst hd2
      simp [VulkanFence.IsSignaled, getFenceStatus, hl, setFenceState]

/-- Claim C5 (witness): the equivalence at a concrete signaled fence, and the
just-created fence of `Create 7 idleDevice`, whose `IsSignaled()` is false. -/
theorem claim_C5_is_signaled_witness :
    (fence0.IsSignaled signaledDevice = true ↔
      specWaitZero fence0 signaledDevice = WaitResult.Signaled) ∧
    VulkanFence.Create 7 idleDevice = Except.ok (createdFence, createdDevice) ∧
    createdFence.IsSignaled createdDevice = false :=
  ⟨(claim_C5_is_signaled fence0 fence0 signaledDevice signaledDevice 7).1,
   rfl,
   (claim_C5_is_signaled fence0 createdFence idleDevice createdDevice 7).2 rfl⟩

/-- Claim C6: `Export` fails with `UnsupportedCapability` — it neither crashes
nor produces a handle — whenever the fence's capability query is false, and it
returns an OS-level handle only when the capability query is true. -/
theorem claim_C6_export (f : VulkanFence) (d : DeviceModel) :
    (f.SupportFenceFd d = false →
      ExportFence f d = Except.error ExportError.UnsupportedCapability) ∧
    (∀ h : OsHandle, ExportFence f d = Except.ok h → f.SupportFenceFd d = true) := by
  constructor
  · intro hc
    simp [ExportFence, hc]
  · intro h hk
    by_cases hc : f.SupportFenceFd d = true
    · exact hc
    · rw [Bool.not_eq_true] at hc
      simp [ExportFence, hc] at hk

/-- Claim C6 (witness): export on a concrete fence of a device without the
capability fails with `UnsupportedCapability`, and export on a concrete fence
of a device with the capability yields a handle, forcing the query true. -/
theorem claim_C6_export_witness :
    (fence0.SupportFenceFd idleDevice = false ∧
     ExportFence fence0 idleDevice = Except.error ExportError.UnsupportedCapability) ∧
    (ExportFence fence0 fdDevice = Except.ok 0 ∧
     fence0.SupportFenceFd fdDevice = true) :=
  ⟨⟨rfl, (claim_C6_export fence0 idleDevice).1 rfl⟩,
   ⟨rfl, (claim_C6_export fence0 fdDevice).2 0 rfl⟩⟩

/-- Modelled from the spec: the Fence Pool state — fence identifiers
partitioned into `Free` and `InUse`, the signal state of each pooled fence,
and the allocation counter.  The fences ever acquired are exactly the
identifiers below the counter; the pool never shrinks during steady-state
operation, so none of them is destroyed. -/
structure FencePool where
  free : List VkFence
  inUse : List VkFence
  states : VkFence → FenceState
  nextId : VkFence

/-- Modelled from the spec: the events acting on the pool — `Acquire` (hand a
fence to a submitter), `Release x` (the caller asserts `x` is signaled; the
pool resets it and moves it back to `Free`), and the device-side signaling of
an in-flight fence on work completion. -/
inductive PoolEvent where
  | acquire
  | release (x : VkFence)
  | signal (x : VkFence)

/-- Modelled from the spec: one pool transition.  `Acquire` recycles the head
of `Free`, or creates a fresh `Unsignaled` fence when `Free` is empty.
`Release x` moves `x` from `InUse` to `Free` only when `x` is in use and
observed `Signaled`, resetting it to `Unsignaled` on the way; otherwise the
call is the `InvalidState` programming error: reported, state unchanged.  A
device signal marks an in-flight fence `Signaled`. -/
def poolStep (p : FencePool) : PoolEvent → FencePool
  | PoolEvent.acquire =>
    match p.free with
    | x :: rest => { p with free := rest, inUse := x :: p.inUse }
    | [] =>
      { p with
        inUse := p.nextId :: p.inUse
        states := setFenceState p.states p.nextId FenceState.Unsignaled
        nextId := p.nextId + 1 }
  | PoolEvent.release x =>
    if x ∈ p.inUse then
      if p.states x = FenceState.Signaled then
        { p with
          free := x :: p.free
          inUse := p.inUse.erase x
          states := setFenceState p.states x FenceState.Unsignaled }
      else p
    else p
  | PoolEvent.signal x =>
    if x ∈ p.inUse then
      { p with states := setFenceState p.states x FenceState.Signaled }
    else p

/-- The empty pool. -/
def initPool : FencePool :=
  { free := [], inUse := [], states := fun _ => FenceState.Unsignaled, nextId := 0 }

/-- Run a sequence of pool events from the empty pool. -/
def runPool (events : List PoolEvent) : FencePool :=
  events.foldl poolStep initPool

/-- The pool invariant of the spec: `Free` and `InUse` hold each fence at most
once and are disjoint; together they hold exactly the fences ever acquired
and not destroyed (the identifiers below the allocation counter); and every
fence sitting in `Free` is `Unsignaled`. -/
def PoolInv (p : FencePool) : Prop :=
  p.free.Nodup ∧ p.inUse.Nodup ∧
  (∀ x, ¬(x ∈ p.free ∧ x ∈ p.inUse)) ∧
  (∀ x, (x ∈ p.free ∨ x ∈ p.inUse) ↔ x < p.nextId) ∧
  (∀ x, x ∈ p.free → p.states x = FenceState.Unsignaled)

/-- Every pool transition preserves the pool invariant. -/
theorem poolStep_inv (p : FencePool) (e : PoolEvent) (h : PoolInv p) :
    PoolInv (poolStep p e) := by
  obtain ⟨hfn, hun, hdisj, huniv, hfree⟩ := h
  cases e with
  | acquire =>
    cases hf : p.free with
    | nil =>
      simp only [poolStep, hf]
      refine ⟨List.nodup_nil, ?_, ?_, ?_, ?_⟩
      · rw [List.nodup_cons]
        refine ⟨?_, hun⟩
        intro hmem
        have := (huniv p.nextId).1 (Or.inr hmem)
        exact absurd this (Nat.lt_irrefl _)
      · intro x hx
        exact absurd hx.1 (List.not_mem_nil x)
      · intro x
        rw [List.mem_cons]
        have hx := huniv x
        rw [hf] at hx
        simp only [List.not_mem_nil, false_or] at hx
        constructor
        · intro hc
          rcases hc with hc | hc
          · exact absurd hc (List.not_mem_nil x)
          · rcases hc with hc | hc
            · rw [hc]
              exact Nat.lt_succ_self _
            · exact Nat.lt_succ_of_lt (hx.1 hc)
        · intro hc
          rcases Nat.lt_succ_iff_lt_or_eq.1 hc with hc | hc
          · exact Or.inr (Or.inr (hx.2 hc))
          · exact Or.inr (Or.inl hc)
      · intro x hx
        exact absurd hx (List.not_mem_nil x)
    | cons y rest =>
      simp only [poolStep, hf]
      have hynodup : (y :: rest).Nodup := hf ▸ hfn
      rw [List.nodup_cons] at hynodup
      refine ⟨hynodup.2, ?_, ?_, ?_, ?_⟩
      · rw [List.nodup_cons]
        refine ⟨?_, hun⟩
        intro hmem
        exact hdisj y ⟨hf ▸ List.mem_cons_self y rest, hmem⟩
      · intro x hx
        rcases hx with ⟨hx1, hx2⟩
        rw [List.mem_cons] at hx2
        rcases hx2 with hx2 | hx2
        · rw [hx2] at hx1
          exact hynodup.1 hx1
        · exact hdisj x ⟨hf ▸ List.mem_cons_of_mem y hx1, hx2⟩
      · intro x
        have hx := huniv x
        rw [hf] at hx
        rw [List.mem_cons]
        rw [List.mem_cons] at hx
        constructor
        · intro hc
          rcases hc with hc | hc
          · exact hx.1 (Or.inl (Or.inr hc))
          · rcases hc with hc | hc
            · exact hx.1 (Or.inl (Or.inl hc))
            · exact hx.1 (Or.inr hc)
        · intro hc
          rcases hx.2 hc with hc2 | hc2
          · rcases hc2 with hc2 | hc2
            · exact Or.inr (Or.inl hc2)
            · exact Or.inl hc2
          · exact Or.inr (Or.inr hc2)
      · intro x hx
        exact hfree x (hf ▸ List.mem_cons_of_mem y hx)
  | release y =>
    by_cases hy : y ∈ p.inUse
    · by_cases hsig : p.states y = FenceState.Signaled
      · simp only [poolStep, if_pos hy, if_pos hsig]
        have hynotfree : y ∉ p.free := fun hc => hdisj y ⟨hc, hy⟩
        refine ⟨?_, hun.erase y, ?_, ?_, ?_⟩
        · rw [List.nodup_cons]
          exact ⟨hynotfree, hfn⟩
        · intro x hx
          rcases hx with ⟨hx1, hx2⟩
          rw [List.mem_cons] at hx1
          rcases hx1 with hx1 | hx1
          · rw [hx1] at hx2
            exact ((hun.mem_erase_iff).1 hx2).1 rfl
          · exact hdisj x ⟨hx1, List.mem_of_mem_erase hx2⟩
        · intro x
          rw [List.mem_cons]
          constructor
          · intro hc
            rcases hc with hc | hc
            · rcases hc with hc | hc
              · rw [hc]
                exact (huniv y).1 (Or.inr hy)
              · exact (huniv x).1 (Or.inl hc)
            · exact (huniv x).1 (Or.inr (List.mem_of_mem_erase hc))
          · intro hc
            rcases (huniv x).2 hc with hc2 | hc2
            · exact Or.inl (Or.inr hc2)
            · by_cases hxy : x = y
              · exact Or.inl (Or.inl hxy)
              · exact Or.inr ((hun.mem_erase_iff).2 ⟨hxy, hc2⟩)
        · intro x hx
          rw [List.mem_cons] at hx
          by_cases hxy : x = y
          · simp [setFenceState, hxy]
          · simp only [setFenceState, if_neg hxy]
            rcases hx with hx | hx
            · exact absurd hx hxy
            · exact hfree x hx
      · simp only [poolStep, if_pos hy, if_neg hsig]
        exact ⟨hfn, hun, hdisj, huniv, hfree⟩
    · simp only [poolStep, if_neg hy]
      exact ⟨hfn, hun, hdisj, huniv, hfree⟩
  | signal y =>
    by_cases hy : y ∈ p.inUse
    · simp only [poolStep, if_pos hy]
      refine ⟨hfn, hun, hdisj, huniv, ?_⟩
      intro x hx
      have hxy : x ≠ y := by
        intro hc
        rw [hc] at hx
        exact hdisj y ⟨hx, hy⟩
      simp only [setFenceState, if_neg hxy]
      exact hfree x hx
    · simp only [poolStep, if_neg hy]
      exact ⟨hfn, hun, hdisj, huniv, hfree⟩

/-- The empty pool satisfies the pool invariant. -/
theorem initPool_inv : PoolInv initPool := by
  refine ⟨List.nodup_nil, List.nodup_nil, ?_, ?_, ?_⟩ <;>
    intro x <;> simp [initPool]

/-- The pool invariant holds after any event sequence from any invariant
state. -/
theorem runPool_inv_aux (events : List PoolEvent) (q : FencePool) (h : PoolInv q) :
    PoolInv (events.foldl poolStep q) := by
  induction events generalizing q with
  | nil => exact h
  | cons e es ih => exact ih (poolStep q e) (poolStep_inv q e h)

/-- A fence enters `Free` only through a `Release` of that very fence, taken
while it was in use and observed `Signaled`, and it is reset to `Unsignaled`
by that transition. -/
theorem poolStep_free_entry (p : FencePool) (e : PoolEvent) (x : VkFence)
    (hnot : x ∉ p.free) (hmem : x ∈ (poolStep p e).free) :
    e = PoolEvent.release x ∧ x ∈ p.inUse ∧
    p.states x = FenceState.Signaled ∧
    (poolStep p e).states x = FenceState.Unsignaled := by
  cases e with
  | acquire =>
    exfalso
    cases hf : p.free with
    | nil =>
      simp only [poolStep, hf] at hmem
      exact List.not_mem_nil x hmem
    | cons y rest =>
      simp only [poolStep, hf] at hmem
      exact hnot (hf ▸ List.mem_cons_of_mem y hmem)
  | release y =>
    by_cases hy : y ∈ p.inUse
    · by_cases hsig : p.states y = FenceState.Signaled
      · simp only [poolStep, if_pos hy, if_pos hsig] at hmem ⊢
        rw [List.mem_cons] at hmem
        rcases hmem with hmem | hmem
        · subst hmem
          refine ⟨rfl, hy, hsig, ?_⟩
          simp [setFenceState]
        · exact absurd hmem hnot
      · simp only [poolStep, if_pos hy, if_neg hsig] at hmem
        exact absurd hmem hnot
    · simp only [poolStep, if_neg hy] at hmem
      exact absurd hmem hnot
  | signal y =>
    by_cases hy : y ∈ p.inUse
    · simp only [poolStep, if_pos hy] at hmem
      exact absurd hmem hnot
    · simp only [poolStep, if_neg hy] at hmem
      exact absurd hmem hnot

/-- Claim C8: at every point of any `Acquire`/`Release` event sequence, the
`Free` and `InUse` sets of the pool are disjoint (each holding a fence at most
once) and their union is exactly the set of fences ever acquired and not
destroyed; and a fence moves from `InUse` back to `Free` only through a
release of that fence taken after it was observed `Signaled`, which resets it
to `Unsignaled`. -/
theorem claim_C8_pool_invariant (events : List PoolEvent) (e : PoolEvent) (x : VkFence) :
    PoolInv (runPool events) ∧
    (x ∉ (runPool events).free → x ∈ (poolStep (runPool events) e).free →
      e = PoolEvent.release x ∧ x ∈ (runPool events).inUse ∧
      (runPool events).states x = FenceState.Signaled ∧
      (poolStep (runPool events) e).states x = FenceState.Unsignaled) :=
  ⟨runPool_inv_aux events initPool initPool_inv,
   poolStep_free_entry (runPool events) e x⟩

/-- Claim C8 (witness): the invariant and the `InUse`-to-`Free` transfer
condition at a concrete run — acquire a fence, let the device signal it, then
release it. -/
theorem claim_C8_pool_invariant_witness :
    (0 : VkFence) ∉ (runPool [PoolEvent.acquire, PoolEvent.signal 0]).free ∧
    (0 : VkFence) ∈
      (poolStep (runPool [PoolEvent.acquire, PoolEvent.signal 0]) (PoolEvent.release 0)).free ∧
    (PoolEvent.release 0 = PoolEvent.release 0 ∧
     (0 : VkFence) ∈ (runPool [PoolEvent.acquire, PoolEvent.signal 0]).inUse ∧
     (runPool [PoolEvent.acquire, PoolEvent.signal 0]).states 0 = FenceState.Signaled ∧
     (poolStep (runPool [PoolEvent.acquire, PoolEvent.signal 0]) (PoolEvent.release 0)).states 0 =
       FenceState.Unsignaled) :=
  ⟨by decide, by decide,
   (claim_C8_pool_invariant [PoolEvent.acquire, PoolEvent.signal 0]
      (PoolEvent.release 0) 0).2 (by decide) (by decide)⟩

/-- Every public const method call leaves the `VulkanFence` object itself
unchanged (all four methods are declared `const` and the members are not
`mutable`). -/
theorem runCalls_fst (s : VulkanFence × DeviceModel) (cs : List MethodCall) :
    (runCalls s cs).1 = s.1 := by
  induction cs generalizing s with
  | nil => rfl
  | cons c cs ih =>
    have h1 : (applyMethod s c).1 = s.1 := by
      cases c <;> rfl
    have h2 : runCalls s (c :: cs) = runCalls (applyMethod s c) cs := rfl
    rw [h2, ih (applyMethod s c), h1]

/-- Claim C9: the logical device is supplied at construction and held as a
borrowed, non-owning reference: construction binds the new fence to exactly
the given device; the binding is unchanged by any sequence of public method
calls between construction and destruction; and destroying the fence releases
only the native fence handle, leaving the set of live devices — the device's
lifetime — untouched. -/
theorem claim_C9_device_binding (dev : VkDevice) (d d2 : DeviceModel)
    (fc : VulkanFence) (cs : List MethodCall) (hs : Handles)
    (h : VulkanFence.Create dev d = Except.ok (fc, d2)) :
    fc.logical_device_ = dev ∧
    (runCalls (fc, d2) cs).1.logical_device_ = dev ∧
    (destroyFence fc hs).liveDevices = hs.liveDevices := by
  have hdev : fc.logical_device_ = dev := by
    by_cases hl : d.lost = true
    · simp [VulkanFence.Create, hl] at h
    · rw [Bool.not_eq_true] at hl
      simp only [VulkanFence.Create, hl, Bool.false_eq_true, if_false,
        Except.ok.injEq, Prod.mk.injEq] at h
      obtain ⟨hfc, _⟩ := h
      rw [← hfc]
  refine ⟨hdev, ?_, rfl⟩
  rw [runCalls_fst (fc, d2) cs]
  exact hdev

/-- Claim C9 (witness): the binding theorem at the concrete construction
`Create 7 idleDevice`, a reset call in between, and a concrete handle set. -/
theorem claim_C9_device_binding_witness :
    VulkanFence.Create 7 idleDevice = Except.ok (createdFence, createdDevice) ∧
    createdFence.logical_device_ = 7 ∧
    (runCalls (createdFence, createdDevice) [MethodCall.reset]).1.logical_device_ = 7 ∧
    (destroyFence createdFence ⟨[7], [0]⟩).liveDevices = [7] :=
  ⟨rfl,
   (claim_C9_device_binding 7 idleDevice createdDevice createdFence
      [MethodCall.reset] ⟨[7], [0]⟩ rfl).1,
   (claim_C9_device_binding 7 idleDevice createdDevice createdFence
      [MethodCall.reset] ⟨[7], [0]⟩ rfl).2.1,
   (claim_C9_device_binding 7 idleDevice createdDevice createdFence
      [MethodCall.reset] ⟨[7], [0]⟩ rfl).2.2⟩

/-- Claim C10: every public operation of the fence object (`Get`, `Reset`,
`Wait`, `SupportFenceFd`) leaves the object's stored state unchanged — the
native fence handle member and the device reference are the same before and
after any sequence of calls (all four methods are declared `const` in the
header) — so `Get()` returns the same handle value on every call throughout
the object's lifetime. -/
theorem claim_C10_const_frame (f : VulkanFence) (d : DeviceModel) (cs : List MethodCall) :
    (runCalls (f, d) cs).1.fence_ = f.fence_ ∧
    (runCalls (f, d) cs).1.logical_device_ = f.logical_device_ ∧
    (runCalls (f, d) cs).1.Get = f.Get := by
  rw [runCalls_fst (f, d) cs]
  exact ⟨rfl, rfl, rfl⟩
